import Mathlib

/-!
# Verification of the TravelWiseAI Amadeus MCP server's offer-resolution core

Shallow embedding of `src/server.py`.  The file on disk contains an unresolved
git merge: a `HEAD` variant (mock-data fallback, flight/hotel/car tools with
`except ResponseError` only) and a merged variant (fail-fast lifespan, a flight
tool with traveler-count validation, conditional parameter building and a
catch-all `except Exception`).  Both variants are embedded where a claim
depends on them.

Python semantics modelled explicitly:
* values flowing through JSON payloads are a `Json` inductive;
* Python truthiness (`if x:`) is `jsonTruthy` / `pyStrTruthy` / option variants;
* an exception escaping a tool invocation is `Except.error`; a returned
  JSON document is `Except.ok`;
* the Amadeus SDK call is a `GatewayBehavior`: a successful payload, a
  `ResponseError` (the only exception type the HEAD-variant handlers catch),
  or any other exception.
-/

namespace TravelWise

/-- JSON values, the payloads Python's `json.dumps` serializes.  Numbers are
modelled as rationals (exact arithmetic stands in for Python floats; every
number this program produces is an integer number of cents, where all float
operations used here are exact). -/
inductive Json where
  | null : Json
  | bool (b : Bool) : Json
  | num (q : ℚ) : Json
  | str (s : String) : Json
  | arr (xs : List Json) : Json
  | obj (fields : List (String × Json)) : Json

/-- A scalar sent as a query parameter to the Amadeus SDK. -/
inductive ParamValue where
  | str (s : String) : ParamValue
  | int (n : ℤ) : ParamValue
  | bool (b : Bool) : ParamValue
deriving DecidableEq

/-- Outcome of one Amadeus SDK call (`amadeus_client...get(...)`): a successful
payload (`response.data` / `response.body` depending on the call site), a raised
`amadeus.ResponseError` carrying `str(error)` and `status_code`, or any other
raised exception. -/
inductive GatewayBehavior (α : Type) where
  | ok (data : α) : GatewayBehavior α
  | responseError (msg : String) (statusCode : ℤ) : GatewayBehavior α
  | otherExn (msg : String) : GatewayBehavior α

/-- Python truthiness of a string: non-empty. -/
def pyStrTruthy (s : String) : Bool := !s.isEmpty

/-- Python truthiness of an optional string (`None` is falsy). -/
def pyOptStrTruthy : Option String → Bool
  | none => false
  | some s => pyStrTruthy s

/-- Python truthiness of an optional int (`None` and `0` are falsy). -/
def pyOptIntTruthy : Option ℤ → Bool
  | none => false
  | some n => decide (n ≠ 0)

/-- Python truthiness of a JSON value (`None`, `False`, `0`, `""`, `[]`, `{}`
are falsy). -/
def jsonTruthy : Json → Bool
  | .null => false
  | .bool b => b
  | .num q => decide (q ≠ 0)
  | .str s => !s.isEmpty
  | .arr xs => !xs.isEmpty
  | .obj fs => !fs.isEmpty

/-- First value bound to key `k` in a Python dict literal, `none` if absent. -/
def lookupField (fs : List (String × Json)) (k : String) : Option Json :=
  match fs with
  | [] => none
  | (k₀, v) :: rest => if k₀ = k then some v else lookupField rest k

/-- Python `x[0]` on a JSON value: succeeds only on a non-empty list; raises
(`IndexError`/`KeyError`/`TypeError`) otherwise. -/
def pyIndex0 : Json → Except String Json
  | .arr (x :: _) => .ok x
  | .arr [] => .error "IndexError: list index out of range"
  | _ => .error "TypeError: value is not subscriptable by 0"

/-- Python `x[k]` for a string key: succeeds on a dict that has the key;
raises `KeyError`/`TypeError` otherwise. -/
def pyGetItem (j : Json) (k : String) : Except String Json :=
  match j with
  | .obj fs =>
      match lookupField fs k with
      | some v => .ok v
      | none => .error ("KeyError: " ++ k)
  | _ => .error "TypeError: value is not subscriptable"

/-- Digits of a decimal numeral to a natural number; `none` on a non-digit. -/
def digitsToNat (l : List Char) : Option ℕ :=
  l.foldl
    (fun acc c =>
      match acc with
      | none => none
      | some n => if c.isDigit then some (n * 10 + (c.toNat - 48)) else none)
    (some 0)

/-- Parse a plain decimal literal (optional leading minus, optional single
point) as Python's `float()` accepts it; `none` where `float()` raises
`ValueError`.  Exponent and whitespace forms, which this program never
produces, are not modelled. -/
def parseDecimal (s : String) : Option ℚ :=
  let neg : Bool := s.startsWith "-"
  let body : String := if neg then s.drop 1 else s
  match body.splitOn "." with
  | [intPart] =>
      if intPart.isEmpty then none
      else (digitsToNat intPart.toList).map
        (fun n => if neg then -(n : ℚ) else (n : ℚ))
  | [intPart, fracPart] =>
      if intPart.isEmpty && fracPart.isEmpty then none
      else
        match digitsToNat intPart.toList, digitsToNat fracPart.toList with
        | some i, some f =>
            let q : ℚ := (i : ℚ) + (f : ℚ) / ((10 : ℚ) ^ fracPart.length)
            some (if neg then -q else q)
        | _, _ => none
  | _ => none

/-- Python `float(x)` on a JSON value: numbers and numeric strings convert,
booleans convert to 0/1, everything else raises. -/
def pyFloat : Json → Except String ℚ
  | .num q => .ok q
  | .bool b => .ok (if b then 1 else 0)
  | .str s =>
      match parseDecimal s with
      | some q => .ok q
      | none => .error "ValueError: could not convert string to float"
  | _ => .error "TypeError: float() argument"

/-- Python `round(x, 2)`.  Every value this program rounds is an exact
multiple of 1/100, where all rounding modes agree and the result is `x`
itself, so the tie-breaking mode is immaterial here. -/
def pyRound2 (q : ℚ) : ℚ := ((round (q * 100) : ℤ) : ℚ) / 100

/-- `json.dumps({"error": msg})`, the failure shape of every tool. -/
def errObj (msg : String) : Json := .obj [("error", .str msg)]

/-- The response is exactly the failure shape `{"error": <string>}`. -/
def isErrorShape : Json → Bool
  | .obj [("error", .str _)] => true
  | _ => false

/-- The response (if a dict) has some `"error"` key. -/
def hasErrorKey : Json → Bool
  | .obj fs => fs.any (fun p => p.1 == "error")
  | _ => false

/-- A well-formed `ToolResponse`: either exactly the failure shape or a
success payload with no `"error"` key — never both, never neither. -/
def wellFormedResponse (j : Json) : Bool := isErrorShape j || !hasErrorKey j

/-- The invocation returned (no exception escaped). -/
def noEscape : Except String Json → Bool
  | .ok _ => true
  | .error _ => false

/-! ## Flight tool, merged variant (`search_flight_offers`, lines 220–299)

The Python parameter bindings of one invocation: required scalars plus the
optional keyword arguments, each `Option` (`none` is Python `None`); `max`
carries the Python default `250` when the caller omits it. -/

/-- Argument bindings of one `search_flight_offers` invocation, merged
variant. -/
structure FlightArgs where
  originLocationCode : String
  destinationLocationCode : String
  departureDate : String
  adults : ℤ
  returnDate : Option String := none
  children : Option ℤ := none
  infants : Option ℤ := none
  travelClass : Option String := none
  includedAirlineCodes : Option String := none
  excludedAirlineCodes : Option String := none
  nonStop : Option Bool := none
  currencyCode : Option String := none
  maxPrice : Option ℤ := none
  max : Option ℤ := some 250

/-- The three traveler-count `if` statements at the top of the merged
`search_flight_offers`, with Python truthiness of each guard conjunct
preserved (`if adults and ...`, `if children and infants and adults and ...`,
`if infants and adults and ...`).  Returns the error message of the first
guard that fires, `none` when validation passes. -/
def flightValidationError (adults : ℤ) (children infants : Option ℤ) :
    Option String :=
  if decide (adults ≠ 0) && !(decide (1 ≤ adults) && decide (adults ≤ 9)) then
    some "Adults must be between 1 and 9"
  else if pyOptIntTruthy children && pyOptIntTruthy infants
      && decide (adults ≠ 0) && decide (adults + children.getD 0 > 9) then
    some "Total number of seated travelers (adults + children) cannot exceed 9"
  else if pyOptIntTruthy infants && decide (adults ≠ 0)
      && decide (infants.getD 0 > adults) then
    some "Number of infants cannot exceed number of adults"
  else
    none

/-- The `params` dict built by the merged `search_flight_offers` (lines
259–284): four unconditional insertions, then one conditional insertion per
optional argument — string options guarded by truthiness (`if returnDate:`),
numeric/boolean options guarded by `is not None`. -/
def buildFlightParams (a : FlightArgs) : List (String × ParamValue) :=
  [("originLocationCode", .str a.originLocationCode),
   ("destinationLocationCode", .str a.destinationLocationCode),
   ("departureDate", .str a.departureDate),
   ("adults", .int a.adults)]
  ++ (if pyOptStrTruthy a.returnDate then
        [("returnDate", .str (a.returnDate.getD ""))] else [])
  ++ (if a.children.isSome then
        [("children", .int (a.children.getD 0))] else [])
  ++ (if a.infants.isSome then
        [("infants", .int (a.infants.getD 0))] else [])
  ++ (if pyOptStrTruthy a.travelClass then
        [("travelClass", .str (a.travelClass.getD ""))] else [])
  ++ (if pyOptStrTruthy a.includedAirlineCodes then
        [("includedAirlineCodes", .str (a.includedAirlineCodes.getD ""))] else [])
  ++ (if pyOptStrTruthy a.excludedAirlineCodes then
        [("excludedAirlineCodes", .str (a.excludedAirlineCodes.getD ""))] else [])
  ++ (if a.nonStop.isSome then
        [("nonStop", .bool (a.nonStop.getD false))] else [])
  ++ (if pyOptStrTruthy a.currencyCode then
        [("currencyCode", .str (a.currencyCode.getD ""))] else [])
  ++ (if a.maxPrice.isSome then
        [("maxPrice", .int (a.maxPrice.getD 0))] else [])
  ++ (if a.max.isSome then
        [("max", .int (a.max.getD 0))] else [])

/-- The merged `search_flight_offers` body.  The gateway is the SDK call
`amadeus_client.shopping.flight_offers_search.get(**params)`, whose successful
payload `response.body` is a string.  Result: the returned JSON document
(`Except.ok`) or an escaped exception (`Except.error` — unreachable in this
variant, whose `except Exception` is a catch-all), paired with the number of
gateway calls the invocation issued. -/
def search_flight_offers (a : FlightArgs)
    (gw : List (String × ParamValue) → GatewayBehavior String) :
    Except String Json × ℕ :=
  match flightValidationError a.adults a.children a.infants with
  | some msg => (.ok (errObj msg), 0)
  | none =>
      match gw (buildFlightParams a) with
      | .ok body => (.ok (.str body), 1)
      | .responseError msg _ =>
          (.ok (errObj ("Amadeus API error: " ++ msg)), 1)
      | .otherExn msg =>
          (.ok (errObj ("Unexpected error: " ++ msg)), 1)

/-! ## Caller view of a flight invocation

For the parameter-normalization claim the caller's call site is modelled
separately from the Python bindings: each optional field is `none` when the
caller omits the keyword argument entirely.  Python then fills the declared
defaults — `None` for every optional argument except `max`, whose default is
`250`. -/

/-- One call site of `search_flight_offers`: `none` = argument not supplied. -/
structure FlightCall where
  originLocationCode : String
  destinationLocationCode : String
  departureDate : String
  adults : ℤ
  returnDate : Option String := none
  children : Option ℤ := none
  infants : Option ℤ := none
  travelClass : Option String := none
  includedAirlineCodes : Option String := none
  excludedAirlineCodes : Option String := none
  nonStop : Option Bool := none
  currencyCode : Option String := none
  maxPrice : Option ℤ := none
  max : Option ℤ := none

/-- Python's binding of a call site to the function's parameters: identical
except that an omitted `max` receives the declared default `250`. -/
def FlightCall.toArgs (c : FlightCall) : FlightArgs :=
  { originLocationCode := c.originLocationCode
    destinationLocationCode := c.destinationLocationCode
    departureDate := c.departureDate
    adults := c.adults
    returnDate := c.returnDate
    children := c.children
    infants := c.infants
    travelClass := c.travelClass
    includedAirlineCodes := c.includedAirlineCodes
    excludedAirlineCodes := c.excludedAirlineCodes
    nonStop := c.nonStop
    currencyCode := c.currencyCode
    maxPrice := c.maxPrice
    max := some (c.max.getD 250) }

/-- The required upstream field names of a flight search. -/
def requiredFlightKeys : List String :=
  ["originLocationCode", "destinationLocationCode", "departureDate", "adults"]

/-- The optional keys the caller explicitly supplied, in declaration order. -/
def FlightCall.suppliedKeys (c : FlightCall) : List String :=
  (if c.returnDate.isSome then ["returnDate"] else [])
  ++ (if c.children.isSome then ["children"] else [])
  ++ (if c.infants.isSome then ["infants"] else [])
  ++ (if c.travelClass.isSome then ["travelClass"] else [])
  ++ (if c.includedAirlineCodes.isSome then ["includedAirlineCodes"] else [])
  ++ (if c.excludedAirlineCodes.isSome then ["excludedAirlineCodes"] else [])
  ++ (if c.nonStop.isSome then ["nonStop"] else [])
  ++ (if c.currencyCode.isSome then ["currencyCode"] else [])
  ++ (if c.maxPrice.isSome then ["maxPrice"] else [])
  ++ (if c.max.isSome then ["max"] else [])

/-- Modelled from the spec: the key set the normalization claim asserts —
the required fields plus exactly the explicitly supplied optional keys. -/
def FlightCall.claimedKeys (c : FlightCall) : List String :=
  requiredFlightKeys ++ c.suppliedKeys

/-- The key set the code actually produces: the required fields, every
non-`None` optional whose value is truthy for string fields and arbitrary
for numeric/boolean fields, and always `max` (caller value or default 250). -/
def FlightCall.actualKeySpec (c : FlightCall) : List String :=
  requiredFlightKeys
  ++ (if pyOptStrTruthy c.returnDate then ["returnDate"] else [])
  ++ (if c.children.isSome then ["children"] else [])
  ++ (if c.infants.isSome then ["infants"] else [])
  ++ (if pyOptStrTruthy c.travelClass then ["travelClass"] else [])
  ++ (if pyOptStrTruthy c.includedAirlineCodes then ["includedAirlineCodes"] else [])
  ++ (if pyOptStrTruthy c.excludedAirlineCodes then ["excludedAirlineCodes"] else [])
  ++ (if c.nonStop.isSome then ["nonStop"] else [])
  ++ (if pyOptStrTruthy c.currencyCode then ["currencyCode"] else [])
  ++ (if c.maxPrice.isSome then ["maxPrice"] else [])
  ++ ["max"]

/-- Keys of an outgoing parameter map. -/
def paramKeys (ps : List (String × ParamValue)) : List String :=
  ps.map Prod.fst

/-! ## Hotel tool (`search_hotel_offers`, HEAD variant, lines 130–174)

The only hotel tool in the file.  One SDK call
(`shopping.hotel_offers_search.get`) whose successful payload is
`response.data`; only `amadeus.ResponseError` is caught.  When the client is
absent (HEAD mock fallback) a synthetic payload is returned before any
gateway call. -/

/-- The fixed parameter map the hotel tool sends upstream: the currency is
hard-coded to `"USD"`, everything else is the caller's values. -/
def buildHotelParams (cityCode : String) (adults : ℤ)
    (checkInDate checkOutDate : String) (max : ℤ) :
    List (String × ParamValue) :=
  [("cityCode", .str cityCode),
   ("adults", .int adults),
   ("checkInDate", .str checkInDate),
   ("checkOutDate", .str checkOutDate),
   ("currency", .str "USD"),
   ("max", .int max)]

/-- Extraction of the first offer from a truthy `response.data['data']`
(lines 163–170): `data['data'][0]`, its `offers[0]`, the hotel name and
`float(price.total)`; any failure raises and, with only `ResponseError`
handled, escapes the invocation. -/
def hotelFirstOffer (dataField : Json) (checkInDate checkOutDate : String) :
    Except String Json := do
  let firstHotel ← pyIndex0 dataField
  let offers ← pyGetItem firstHotel "offers"
  let firstOffer ← pyIndex0 offers
  let hotel ← pyGetItem firstHotel "hotel"
  let name ← pyGetItem hotel "name"
  let nameStr ←
    match name with
    | .str s => Except.ok s
    | _ => Except.error "TypeError: cannot concatenate non-str"
  let price ← pyGetItem firstOffer "price"
  let total ← pyGetItem price "total"
  let cost ← pyFloat total
  let currency ← pyGetItem price "currency"
  pure (.obj
    [("item", .str ("Hotel: " ++ nameStr ++ " (" ++ checkInDate ++ " to "
        ++ checkOutDate ++ ")")),
     ("cost", .num cost),
     ("currency", currency)])

/-- The `search_hotel_offers` body.  `hasClient` is whether `app_lifespan`
supplied an Amadeus client (HEAD fallback yields `None`); `mockDraw` the
`random.randint(300, 900)` draw of the mock branch; `gw` the single SDK
call's behavior. -/
def search_hotel_offers (cityCode checkInDate checkOutDate : String)
    (adults : ℤ) (hasClient : Bool) (mockDraw : ℤ) (max : ℤ)
    (gw : List (String × ParamValue) → GatewayBehavior Json) :
    Except String Json :=
  if !hasClient then
    .ok (.obj
      [("item", .str ("Hotel: " ++ cityCode ++ " Stay (MOCK)")),
       ("cost", .num mockDraw),
       ("currency", .str "USD")])
  else
    match gw (buildHotelParams cityCode adults checkInDate checkOutDate max) with
    | .ok data =>
        -- `if response.data and response.data.get('data'):`
        if jsonTruthy data then
          match data with
          | .obj fs =>
              match lookupField fs "data" with
              | some v =>
                  if jsonTruthy v then
                    hotelFirstOffer v checkInDate checkOutDate
                  else
                    .ok (errObj ("No hotel offers found in " ++ cityCode ++ "."))
              | none =>
                  .ok (errObj ("No hotel offers found in " ++ cityCode ++ "."))
          | _ =>
              -- `.get` on a non-dict raises AttributeError, which escapes
              .error "AttributeError: value has no attribute get"
        else
          .ok (errObj ("No hotel offers found in " ++ cityCode ++ "."))
    | .responseError _ statusCode =>
        .ok (errObj ("Amadeus Hotel API Error: Status " ++ toString statusCode))
    | .otherExn msg => .error msg

/-- The condition under which the upstream call succeeded but carries zero
priced offers — exactly the hotel tool's falsy branches: `response.data`
falsy, or a dict whose `data` entry is missing or falsy. -/
def hotelOffersEmpty : Json → Bool
  | .obj fs =>
      if (!fs.isEmpty : Bool) then
        match lookupField fs "data" with
        | some v => !jsonTruthy v
        | none => true
      else true
  | d => !jsonTruthy d

/-- The declared defaults of the hotel tool's signature
(`def search_hotel_offers(cityCode, checkInDate, checkOutDate, adults, ctx,
max=3)`): `adults` has no default (it is required); `max` defaults to 3. -/
structure HotelSignature where
  adultsDefault : Option ℤ
  maxDefault : Option ℤ

/-- The defaults as declared in the source. -/
def hotelSignature : HotelSignature :=
  { adultsDefault := none, maxDefault := some 3 }

/-! ## Car hire / transfer tool (`search_car_hire_transfer_offers`,
lines 178–202)

A pure mock: no gateway call; `randDraw` is the `random.randint(15000,
45000)` draw, cost is `draw / 100` rounded to two decimals. -/

/-- The `search_car_hire_transfer_offers` body.  The tool cannot raise, so
it returns a `Json` document directly. -/
def search_car_hire_transfer_offers (startLocation endLocation : String)
    (randDraw : ℤ) : Json :=
  if !(pyStrTruthy startLocation && pyStrTruthy endLocation) then
    errObj "Missing start or end location for car hire."
  else
    .obj
      [("item", .str ("Car Hire/Transfer: " ++ startLocation ++ " to "
          ++ endLocation)),
       ("cost", .num (pyRound2 ((randDraw : ℚ) / 100))),
       ("currency", .str "USD"),
       ("notes", .str "Cost is an MVP estimate for a standard sedan transfer/hire.")]

/-! ## Lifespan (`app_lifespan`, both variants, lines 31–75)

Both variants read `AMADEUS_API_KEY` / `AMADEUS_API_SECRET` and test
`if not api_key or not api_secret`.  The HEAD variant prints a warning and
yields an `AppContext` whose client is `None` (tools then serve mock data);
the merged variant raises `ValueError` so the server never starts. -/

/-- What `app_lifespan` does before any tool can run: yield a context (with
or without a client) or raise at startup. -/
inductive LifespanResult where
  | yielded (hasClient : Bool) : LifespanResult
  | raised (msg : String) : LifespanResult
deriving DecidableEq

/-- HEAD variant: missing credentials fall back to a client-less context. -/
def app_lifespan_head (apiKey apiSecret : Option String) : LifespanResult :=
  if !pyOptStrTruthy apiKey || !pyOptStrTruthy apiSecret then
    .yielded false
  else
    .yielded true

/-- Merged variant: missing credentials raise `ValueError` at startup. -/
def app_lifespan_merged (apiKey apiSecret : Option String) : LifespanResult :=
  if !pyOptStrTruthy apiKey || !pyOptStrTruthy apiSecret then
    .raised "AMADEUS_API_KEY and AMADEUS_API_SECRET must be set as environment variables"
  else
    .yielded true

/-! ## Flight tool, HEAD variant (`search_flight_offers`, lines 80–126)

No traveler-count validation; a mock branch when the client is `None`; the
successful payload is `response.data` (a list of offers); only
`ResponseError` is caught. -/

/-- Extraction from a truthy first offer (lines 118–123):
`float(data[0]['price']['grandTotal'])` and `data[0]['price']['currency']`;
any failure raises and escapes. -/
def flightHeadFirstOffer (firstOffer : Json)
    (originLocationCode destinationLocationCode : String) :
    Except String Json := do
  let price ← pyGetItem firstOffer "price"
  let grandTotal ← pyGetItem price "grandTotal"
  let cost ← pyFloat grandTotal
  let currency ← pyGetItem price "currency"
  pure (.obj
    [("item", .str ("Flight: " ++ originLocationCode ++ " to "
        ++ destinationLocationCode)),
     ("cost", .num cost),
     ("currency", currency)])

/-- The HEAD `search_flight_offers` body.  `mockDraw` is the
`random.randint(400, 800)` draw of the mock branch. -/
def search_flight_offers_head (originLocationCode destinationLocationCode
      departureDate : String) (adults : ℤ) (returnDate : Option String)
    (max : ℤ) (hasClient : Bool) (mockDraw : ℤ)
    (gw : List (String × ParamValue) → GatewayBehavior Json) :
    Except String Json :=
  if !hasClient then
    .ok (.obj
      [("item", .str ("Flight: " ++ originLocationCode ++ " to "
          ++ destinationLocationCode ++ " (MOCK)")),
       ("cost", .num mockDraw),
       ("currency", .str "USD")])
  else
    let params :=
      [("originLocationCode", ParamValue.str originLocationCode),
       ("destinationLocationCode", ParamValue.str destinationLocationCode),
       ("departureDate", ParamValue.str departureDate),
       ("adults", ParamValue.int adults),
       ("max", ParamValue.int max)]
      ++ (if pyOptStrTruthy returnDate then
            [("returnDate", ParamValue.str (returnDate.getD ""))] else [])
    match gw params with
    | .ok data =>
        -- `if response.data and response.data[0]:`
        if jsonTruthy data then
          match pyIndex0 data with
          | .error e => .error e
          | .ok firstOffer =>
              if jsonTruthy firstOffer then
                flightHeadFirstOffer firstOffer
                  originLocationCode destinationLocationCode
              else
                .ok (errObj "No flight offers found.")
        else
          .ok (errObj "No flight offers found.")
    | .responseError msg _ =>
        .ok (errObj ("Amadeus Flight API error: " ++ msg))
    | .otherExn msg => .error msg

/-! ## Concrete gateway fixtures used to evaluate the tools -/

/-- A flight gateway that answers every request with a successful body. -/
def flightGatewayStub : List (String × ParamValue) → GatewayBehavior String :=
  fun _ => .ok "body"

/-- A hotel gateway that answers every request with the payload `d`. -/
def hotelGatewayOf (d : Json) : List (String × ParamValue) → GatewayBehavior Json :=
  fun _ => .ok d

/-- A hotel gateway that raises an exception that is not a `ResponseError`. -/
def hotelGatewayBoom : List (String × ParamValue) → GatewayBehavior Json :=
  fun _ => .otherExn "boom"

/-- The invocation returned, and what it returned is a well-formed
`ToolResponse`. -/
def wellFormedOk : Except String Json → Bool
  | .ok j => wellFormedResponse j
  | .error _ => false

/-! # Theorems for the claims -/

/-- Claim C1, counterexample: a hotel invocation whose gateway raises an
exception that is not a `ResponseError` lets that exception escape uncaught —
the invocation yields no `ToolResponse` at all, refuting the claim that no
exception ever escapes any tool invocation. -/
theorem C1_counterexample :
    search_hotel_offers "PAR" "2025-06-01" "2025-06-03" 2 true 0 3
      hotelGatewayBoom = .error "boom"
    ∧ noEscape (search_hotel_offers "PAR" "2025-06-01" "2025-06-03" 2 true 0 3
        hotelGatewayBoom) = false := ⟨rfl, rfl⟩

/-- Claim C1, amended: the merged-variant flight tool (catch-all
`except Exception`) and the car tool always return exactly one well-formed
`ToolResponse` for every gateway behavior and never let an exception escape;
the hotel tool and the HEAD-variant flight tool catch only `ResponseError`,
so an unclassified gateway exception escapes those invocations uncaught. -/
theorem C1_tool_boundary_amended :
    (∀ (a : FlightArgs) (gw : List (String × ParamValue) → GatewayBehavior String),
        wellFormedOk (search_flight_offers a gw).1 = true)
    ∧ (∀ (s e : String) (n : ℤ),
        wellFormedResponse (search_car_hire_transfer_offers s e n) = true)
    ∧ (∀ (city ci co : String) (adults mockDraw mx : ℤ) (m : String),
        search_hotel_offers city ci co adults true mockDraw mx
          (fun _ => .otherExn m) = .error m)
    ∧ (∀ (o d dd : String) (adults : ℤ) (rd : Option String) (mx mockDraw : ℤ)
         (m : String),
        search_flight_offers_head o d dd adults rd mx true mockDraw
          (fun _ => .otherExn m) = .error m) := by
  refine ⟨?_, ?_, ?_, ?_⟩
  · intro a gw
    unfold search_flight_offers
    cases hv : flightValidationError a.adults a.children a.infants with
    | some msg => rfl
    | none =>
        cases hg : gw (buildFlightParams a) with
        | ok body => rfl
        | responseError msg st => rfl
        | otherExn msg => rfl
  · intro s e n
    unfold search_car_hire_transfer_offers
    cases hs : pyStrTruthy s <;> cases he : pyStrTruthy e <;> rfl
  · intro city ci co adults mockDraw mx m
    rfl
  · intro o d dd adults rd mx mockDraw m
    rfl

/-- Claim C2, evaluation at the failing inputs: the truthiness-guarded
checks accept `adults = 4, children = 6` when `infants` is omitted (the
seated-traveler rule is gated on `children and infants and adults` all being
truthy) and the resulting invocation issues the upstream call; they also
accept `adults = 0` (the range rule is gated on `adults` being truthy),
contradicting the documented rule that adults must be 1–9 and that
`adults + children` may not exceed 9. -/
theorem C2_validation_gap_eval :
    flightValidationError 4 (some 6) none = none
    ∧ (search_flight_offers
        { originLocationCode := "SYD", destinationLocationCode := "BKK",
          departureDate := "2025-05-02", adults := 4, children := some 6 }
        flightGatewayStub).2 = 1
    ∧ flightValidationError 0 none none = none := ⟨rfl, rfl, rfl⟩

/-- Claim C3, counterexample: the flight search with `adults = 11` does not
return the seated-travelers error the claim states — the `1 ≤ adults ≤ 9`
check fires first. -/
theorem C3_counterexample :
    search_flight_offers
      { originLocationCode := "SYD", destinationLocationCode := "BKK",
        departureDate := "2025-05-02", adults := 11 }
      flightGatewayStub
      ≠ (.ok (errObj "Total number of seated travelers (adults + children) cannot exceed 9"), 0) := by
  simp [search_flight_offers, flightValidationError, flightGatewayStub, errObj]

/-- Claim C3, amended: the flight search with `originLocationCode = "SYD"`,
`destinationLocationCode = "BKK"`, `departureDate = "2025-05-02"`,
`adults = 11` returns exactly `{"error": "Adults must be between 1 and 9"}`
and issues no upstream call, whatever the gateway would have answered. -/
theorem C3_flight_adults11 (gw : List (String × ParamValue) → GatewayBehavior String) :
    search_flight_offers
      { originLocationCode := "SYD", destinationLocationCode := "BKK",
        departureDate := "2025-05-02", adults := 11 }
      gw
      = (.ok (errObj "Adults must be between 1 and 9"), 0) := rfl

/-- Claim C4: whenever the validator reports a violated rule, the invocation
returns that validation error as its `ToolResponse` and issues zero gateway
calls. -/
theorem C4_validation_short_circuits (a : FlightArgs)
    (gw : List (String × ParamValue) → GatewayBehavior String) (msg : String)
    (h : flightValidationError a.adults a.children a.infants = some msg) :
    search_flight_offers a gw = (.ok (errObj msg), 0) := by
  simp [search_flight_offers, h]

/-- Claim C4, witness: the validator rejects `adults = 11` and the
invocation returns the validation error with zero gateway calls. -/
theorem C4_validation_short_circuits_witness :
    search_flight_offers
      { originLocationCode := "SYD", destinationLocationCode := "BKK",
        departureDate := "2025-05-02", adults := 11 }
      flightGatewayStub
      = (.ok (errObj "Adults must be between 1 and 9"), 0) :=
  C4_validation_short_circuits _ flightGatewayStub _ (by decide)

/-- Claim C5, counterexample: a call supplying only the required fields plus
`travelClass = ""` produces a parameter map that contains `max` (never
supplied — the declared default 250 is always forwarded) and omits
`travelClass` (supplied, but empty strings are dropped), so the outgoing keys
are not exactly the explicitly supplied ones. -/
theorem C5_counterexample :
    ("max" ∈ paramKeys (buildFlightParams (FlightCall.toArgs
        { originLocationCode := "SYD", destinationLocationCode := "BKK",
          departureDate := "2025-05-02", adults := 1,
          travelClass := some "" })))
    ∧ ("max" ∉ FlightCall.claimedKeys
        { originLocationCode := "SYD", destinationLocationCode := "BKK",
          departureDate := "2025-05-02", adults := 1,
          travelClass := some "" })
    ∧ ("travelClass" ∈ FlightCall.claimedKeys
        { originLocationCode := "SYD", destinationLocationCode := "BKK",
          departureDate := "2025-05-02", adults := 1,
          travelClass := some "" })
    ∧ ("travelClass" ∉ paramKeys (buildFlightParams (FlightCall.toArgs
        { originLocationCode := "SYD", destinationLocationCode := "BKK",
          departureDate := "2025-05-02", adults := 1,
          travelClass := some "" }))) := by
  refine ⟨?_, ?_, ?_, ?_⟩ <;> decide

/-- Claim C5, amended: for every call site, the outgoing parameter map's keys
are exactly the four required fields, each supplied numeric or boolean
optional key (including supplied `0` and `false`), each supplied string
optional key whose value is non-empty, and always `max` (the caller's value
or its declared default 250); every key keeps its external API name. -/
theorem C5_param_keys_amended (c : FlightCall) :
    paramKeys (buildFlightParams c.toArgs) = c.actualKeySpec := by
  simp only [paramKeys, buildFlightParams, FlightCall.actualKeySpec,
    FlightCall.toArgs, List.map_append,
    apply_ite (List.map (Prod.fst (α := String) (β := ParamValue))),
    List.map_cons, List.map_nil, Option.isSome_some, if_true]
  rfl

/-- Claim C6, counterexample: a hotel search whose upstream call succeeds
with zero priced offers returns the failure shape
`{"error": "No hotel offers found in PAR."}`, not an informational
`{"info": ...}` marker. -/
theorem C6_counterexample :
    search_hotel_offers "PAR" "2025-06-01" "2025-06-03" 2 true 0 3
      (hotelGatewayOf (.obj [("data", .arr [])]))
      = .ok (errObj "No hotel offers found in PAR.")
    ∧ isErrorShape (errObj "No hotel offers found in PAR.") = true := ⟨rfl, rfl⟩

/-- Claim C6, amended: whenever the hotel tool's upstream call succeeds but
its payload carries zero priced offers (falsy `response.data`, or a missing
or falsy `data` entry), the tool returns the failure shape
`{"error": "No hotel offers found in <cityCode>."}` — an error, not a
distinct informational marker. -/
theorem C6_hotel_zero_offers_amended (city ci co : String)
    (adults mockDraw mx : ℤ) (data : Json)
    (h : hotelOffersEmpty data = true) :
    search_hotel_offers city ci co adults true mockDraw mx (hotelGatewayOf data)
      = .ok (errObj ("No hotel offers found in " ++ city ++ ".")) := by
  cases data with
  | obj fs =>
      by_cases hfs : fs.isEmpty
      · simp [search_hotel_offers, hotelGatewayOf, jsonTruthy, hfs]
      · simp only [hotelOffersEmpty, hfs] at h
        simp only [Bool.not_false, if_true] at h
        cases hl : lookupField fs "data" with
        | none => simp [search_hotel_offers, hotelGatewayOf, jsonTruthy, hfs, hl]
        | some v =>
            rw [hl] at h
            have h2 : jsonTruthy v = false := by simpa [jsonTruthy] using h
            have hj : jsonTruthy (Json.obj fs) = true := by simp [jsonTruthy, hfs]
            simp [search_hotel_offers, hotelGatewayOf, hj, hl, h2]
  | null => simp [search_hotel_offers, hotelGatewayOf, jsonTruthy]
  | bool b =>
      simp [hotelOffersEmpty, jsonTruthy] at h
      simp [search_hotel_offers, hotelGatewayOf, jsonTruthy, h]
  | num q =>
      simp [hotelOffersEmpty, jsonTruthy] at h
      simp [search_hotel_offers, hotelGatewayOf, jsonTruthy, h]
  | str s =>
      simp [hotelOffersEmpty, jsonTruthy] at h
      simp [search_hotel_offers, hotelGatewayOf, jsonTruthy, h]
  | arr xs =>
      simp [hotelOffersEmpty, jsonTruthy] at h
      simp [search_hotel_offers, hotelGatewayOf, jsonTruthy, h]

/-- Claim C6, witness: a successful upstream payload that is an empty dict
is a zero-offers outcome and yields the failure shape. -/
theorem C6_hotel_zero_offers_witness :
    search_hotel_offers "NYC" "2025-06-01" "2025-06-03" 2 true 0 3
      (hotelGatewayOf (.obj []))
      = .ok (errObj "No hotel offers found in NYC.") :=
  C6_hotel_zero_offers_amended "NYC" "2025-06-01" "2025-06-03" 2 0 3
    (.obj []) (by decide)

/-- Claim C7, counterexample: the hotel search for city `"XXZZ"` whose
upstream payload holds zero hotels does not return
`{"error": "No hotels found in city code: XXZZ"}` — the code's message is a
different string. -/
theorem C7_counterexample :
    search_hotel_offers "XXZZ" "2025-06-01" "2025-06-03" 2 true 0 3
      (hotelGatewayOf (.obj [("data", .arr [])]))
      ≠ .ok (errObj "No hotels found in city code: XXZZ") := by
  simp [search_hotel_offers, hotelGatewayOf, buildHotelParams, jsonTruthy,
    lookupField, errObj]

/-- Claim C7, amended: the hotel search for city `"XXZZ"` whose upstream
payload holds zero hotels returns exactly
`{"error": "No hotel offers found in XXZZ."}`. -/
theorem C7_hotel_empty_city_message :
    search_hotel_offers "XXZZ" "2025-06-01" "2025-06-03" 2 true 0 3
      (hotelGatewayOf (.obj [("data", .arr [])]))
      = .ok (errObj "No hotel offers found in XXZZ.") := rfl

/-- Claim C8, counterexample: in the HEAD variant, starting with both
credentials absent raises nothing — the lifespan yields a client-less
context, and a flight invocation in that state returns a synthetic mock
payload instead of being prevented from running. -/
theorem C8_counterexample :
    app_lifespan_head none none = .yielded false
    ∧ search_flight_offers_head "SYD" "BKK" "2025-05-02" 1 none 5 false 500
        (hotelGatewayOf (.arr []))
      = .ok (.obj
          [("item", .str ("Flight: " ++ "SYD" ++ " to " ++ "BKK" ++ " (MOCK)")),
           ("cost", .num 500),
           ("currency", .str "USD")]) := ⟨rfl, rfl⟩

/-- Claim C8, amended: the merged variant is fail-fast as claimed — when the
API key or the secret is missing, `app_lifespan` raises `ValueError` at
startup, so no tool can run; the coexisting HEAD variant instead yields a
client-less context and its tools serve synthetic mock data. -/
theorem C8_lifespan_amended (apiKey apiSecret : Option String)
    (h : pyOptStrTruthy apiKey = false ∨ pyOptStrTruthy apiSecret = false) :
    app_lifespan_merged apiKey apiSecret
      = .raised "AMADEUS_API_KEY and AMADEUS_API_SECRET must be set as environment variables" := by
  unfold app_lifespan_merged
  rcases h with h | h <;> simp [h]

/-- Claim C8, witness: with both environment variables unset the merged
lifespan raises. -/
theorem C8_lifespan_witness :
    app_lifespan_merged none none
      = .raised "AMADEUS_API_KEY and AMADEUS_API_SECRET must be set as environment variables" :=
  C8_lifespan_amended none none (Or.inl rfl)

/-- Claim C9, counterexample: the hotel tool's `adults` parameter has no
declared default at all — it is required — so it is not optional with
default 2. -/
theorem C9_counterexample : ¬ (hotelSignature.adultsDefault = some 2) := by
  decide

/-- Claim C9, amended: in the hotel tool's signature `adults` is required
(no default), the result cap defaults to 3 (which is at most 10), and the
currency is not a caller parameter — every upstream hotel call sends
currency `"USD"`; a call supplying only city code and dates is therefore
rejected for the missing `adults` argument rather than accepted. -/
theorem C9_hotel_signature_amended :
    hotelSignature.adultsDefault = none
    ∧ hotelSignature.maxDefault = some 3
    ∧ (3 : ℤ) ≤ 10
    ∧ ∀ (city : String) (adults : ℤ) (ci co : String) (mx : ℤ),
        ("currency", ParamValue.str "USD")
          ∈ buildHotelParams city adults ci co mx := by
  refine ⟨rfl, rfl, by norm_num, ?_⟩
  intro city adults ci co mx
  simp [buildHotelParams]

/-- Values produced by `randint(15000, 45000) / 100` are exact multiples of
1/100, where Python's `round(x, 2)` is the identity. -/
theorem pyRound2_cents (n : ℤ) : pyRound2 ((n : ℚ) / 100) = (n : ℚ) / 100 := by
  unfold pyRound2
  rw [div_mul_cancel₀]
  · rw [round_intCast]
  · norm_num

/-- Claim C10: for non-empty start and end locations and every draw the
`randint(15000, 45000)` generator can produce, the car/transfer payload has
currency `"USD"` and a cost equal to the draw divided by 100 — a value
between 150.00 and 450.00 inclusive that is an exact two-decimal quantity
(an integer number of hundredths). -/
theorem C10_car_mock_payload (s e : String) (n : ℤ) (hs : s ≠ "") (he : e ≠ "")
    (h1 : 15000 ≤ n) (h2 : n ≤ 45000) :
    search_car_hire_transfer_offers s e n
      = .obj
        [("item", .str ("Car Hire/Transfer: " ++ s ++ " to " ++ e)),
         ("cost", .num ((n : ℚ) / 100)),
         ("currency", .str "USD"),
         ("notes", .str "Cost is an MVP estimate for a standard sedan transfer/hire.")]
    ∧ 150 ≤ (n : ℚ) / 100 ∧ (n : ℚ) / 100 ≤ 450
    ∧ ∃ k : ℤ, (n : ℚ) / 100 = (k : ℚ) / 100 := by
  have hs' : pyStrTruthy s = true := by
    simp [pyStrTruthy, Bool.eq_false_iff, String.isEmpty_iff, hs]
  have he' : pyStrTruthy e = true := by
    simp [pyStrTruthy, Bool.eq_false_iff, String.isEmpty_iff, he]
  refine ⟨?_, ?_, ?_, ⟨n, rfl⟩⟩
  · unfold search_car_hire_transfer_offers
    rw [hs', he', pyRound2_cents]
    rfl
  · rw [le_div_iff₀ (by norm_num : (0 : ℚ) < 100)]
    exact_mod_cast h1
  · rw [div_le_iff₀ (by norm_num : (0 : ℚ) < 100)]
    exact_mod_cast h2

/-- Claim C10, witness: the draw 20000 yields a 200.00 USD payload. -/
theorem C10_car_mock_payload_witness :
    search_car_hire_transfer_offers "SYD" "BKK" 20000
      = .obj
        [("item", .str ("Car Hire/Transfer: " ++ "SYD" ++ " to " ++ "BKK")),
         ("cost", .num (((20000 : ℤ) : ℚ) / 100)),
         ("currency", .str "USD"),
         ("notes", .str "Cost is an MVP estimate for a standard sedan transfer/hire.")] :=
  (C10_car_mock_payload "SYD" "BKK" 20000 (by decide) (by decide) (by decide)
    (by decide)).1

end TravelWise
